import Mathlib

/-!
Shallow embedding of the document-ingestion readers of `geniusrise-ocr`
(`src/geniusrise_ocr/readers/*.py`), and verification of the specified
properties of the content-type classification heuristic and the
text/image extraction paths.

Python machine model used throughout:
* a Python string is a Lean `String`; `str.strip()` is `pyStrip`
  (drop whitespace at both ends) and the truthiness test
  `if s.strip():` is `isTextPage`;
* `str.replace(a, b)` (replace all occurrences) is `String.replace`;
* a document is the list of its per-page extracted texts
  (`page.extract_text()` for page 0, 1, ...), so `page_count` is the
  length of that list;
* `random.sample(range(n), k)` is modelled by quantifying over every
  list of indices it can return: `k` distinct values below `n`
  (`randomSampleSpec` below);
* filesystem writes are recorded as `FileWrite` values naming the root
  folder the source joins the path under (`self.input.input_folder`
  versus `self.output.output_folder`) and the path components beneath
  it, exactly as built by the `os.path.join` calls in the source;
* an exception raised by a third-party call while handling one document
  is an `Except.error`; the batch loops in the source contain no
  `try/except`, so an error propagates out of the loop.
-/

namespace GeniusriseOcr

/-- The two classification outcomes; `TextDominant` routes a document to
the text-extraction handler, `ImageDominant` to the image handler
(`pdf.py` lines 113-117 and the analogous branch of each reader). -/
inductive ClassificationResult where
  | TextDominant : ClassificationResult
  | ImageDominant : ClassificationResult
deriving DecidableEq, Repr

/-- Python `str.strip()`: drop leading and trailing whitespace
characters. Modelled structurally on the character list so that it
evaluates inside the kernel. -/
def pyStrip (s : String) : String :=
  String.mk (((s.data.dropWhile Char.isWhitespace).reverse.dropWhile Char.isWhitespace).reverse)

/-- Python truthiness of `text_content.strip()` (`pdf.py` line 108):
the sampled page counts as a text page iff its stripped text is
non-empty, i.e. iff some character of the page text is not
whitespace. -/
def isTextPage (s : String) : Bool := !(pyStrip s).data.isEmpty

/-- The `text_count` accumulated by the sampling loop of
`ParsePdf.process` (`pdf.py` lines 101-111): the number of sampled
texts whose trimmed form is non-empty. -/
def text_count (texts : List String) : Nat :=
  texts.countP (fun t => isTextPage t)

/-- The `image_count` accumulated by the same loop: the number of sampled
texts whose trimmed form is empty. -/
def image_count (texts : List String) : Nat :=
  texts.countP (fun t => !isTextPage t)

/-- The texts read back for a list of sampled page indices
(`pdf_reader.pages[page_num].extract_text()`, `pdf.py` lines 104-106).
Out-of-range indices never occur for a valid sample; `getD` supplies a
default to keep the function total. -/
def sampleTexts (doc : List String) (sample : List Nat) : List String :=
  sample.map (fun i => doc.getD i "")

/-- The classification decision of `ParsePdf.process` (`pdf.py` lines
113-117), shared verbatim by `ParseDjvu.process` and
`ParsePostScript.process`: text-dominant iff strictly more sampled
pages had non-empty trimmed text. -/
def classify (doc : List String) (sample : List Nat) : ClassificationResult :=
  if text_count (sampleTexts doc sample) > image_count (sampleTexts doc sample) then
    ClassificationResult.TextDominant
  else
    ClassificationResult.ImageDominant

/-- The set of lists `random.sample(range(n), k)` can return
(`pdf.py` line 99): `k` distinct indices drawn without replacement
from `[0, n)`. -/
def randomSampleSpec (n k : Nat) (s : List Nat) : Prop :=
  s.Nodup ∧ (∀ i ∈ s, i < n) ∧ s.length = k

instance (n k : Nat) (s : List Nat) : Decidable (randomSampleSpec n k s) := by
  unfold randomSampleSpec; infer_instance

/-- A sample the classifying readers can actually draw for a document
with `pageCount` pages: `random.sample(range(total_pages),
min(3, total_pages))` (`pdf.py` lines 98-99). -/
def validSample (pageCount : Nat) (s : List Nat) : Prop :=
  randomSampleSpec pageCount (min 3 pageCount) s

instance (n : Nat) (s : List Nat) : Decidable (validSample n s) := by
  unfold validSample; infer_instance

end GeniusriseOcr

namespace GeniusriseOcr

/-- C1: for every document and sample, the classifier picks the text
path iff `text_count > image_count` strictly, otherwise the image path;
in particular a 2-page sample with one non-empty-text page and one
empty-text page (a tie, 1 vs 1) routes to `ImageDominant`. -/
theorem C1_classifier_tiebreak :
    (∀ (doc : List String) (sample : List Nat),
      (classify doc sample = ClassificationResult.TextDominant ↔
        text_count (sampleTexts doc sample) > image_count (sampleTexts doc sample)) ∧
      (classify doc sample = ClassificationResult.ImageDominant ↔
        text_count (sampleTexts doc sample) ≤ image_count (sampleTexts doc sample))) ∧
    classify ["some text", ""] [0, 1] = ClassificationResult.ImageDominant := by
  constructor
  · intro doc sample
    constructor
    · unfold classify
      split <;> simp_all
    · unfold classify
      split <;> simp_all
  · decide

end GeniusriseOcr

namespace GeniusriseOcr

/-- The item types `ParseEpub.process` distinguishes
(`epub.py` lines 80-84): `ebooklib.ITEM_DOCUMENT`,
`ebooklib.ITEM_IMAGE`, and everything else. -/
inductive EpubItemType where
  | document : EpubItemType
  | image : EpubItemType
  | other : EpubItemType
deriving DecidableEq, Repr

/-- The items `ParseEpub.process` examines to classify an EPUB:
`list(epub_book.get_items())[:10]` (`epub.py` line 80), the first 10
items of the container, taken deterministically. -/
def epubSampledItems (items : List EpubItemType) : List EpubItemType :=
  items.take 10

/-- The `text_count` of the EPUB classification loop (`epub.py` lines
81-82): the number of examined items of type `ITEM_DOCUMENT`. -/
def epubTextCount (items : List EpubItemType) : Nat :=
  (epubSampledItems items).countP (fun t => t = EpubItemType.document)

/-- The `image_count` of the EPUB classification loop (`epub.py` lines
83-84): the number of examined items of type `ITEM_IMAGE`. -/
def epubImageCount (items : List EpubItemType) : Nat :=
  (epubSampledItems items).countP (fun t => t = EpubItemType.image)

/-- The classification decision of `ParseEpub.process`
(`epub.py` lines 86-89). -/
def epubClassify (items : List EpubItemType) : ClassificationResult :=
  if epubTextCount items > epubImageCount items then
    ClassificationResult.TextDominant
  else
    ClassificationResult.ImageDominant

/-- C2 counterexample: the EPUB reader does not draw `min(3, n)`
pages. For an EPUB whose container holds 4 document items, the
classification examines all 4 items (`items[:10]`), not
`min(3, 4) = 3`, and no random without-replacement draw occurs. -/
theorem C2_counterexample :
    (epubSampledItems [EpubItemType.document, EpubItemType.document,
        EpubItemType.document, EpubItemType.document]).length = 4 ∧
    ((epubSampledItems [EpubItemType.document, EpubItemType.document,
        EpubItemType.document, EpubItemType.document]).length == min 3 4) = false := by
  decide

/-- C2 amended: the PDF, DJVU and PostScript readers draw
`min(3, page_count)` distinct indices without replacement, a count
that never exceeds `page_count`; the EPUB reader instead examines the
first `min(10, item_count)` items of the container deterministically. -/
theorem C2_sample_bounds :
    (∀ (n : Nat) (s : List Nat), validSample n s →
      s.length = min 3 n ∧ s.length ≤ n ∧ s.Nodup ∧ ∀ i ∈ s, i < n) ∧
    (∀ items : List EpubItemType,
      (epubSampledItems items).length = min 10 items.length ∧
      (epubSampledItems items).length ≤ items.length) := by
  constructor
  · intro n s hs
    obtain ⟨hnd, hlt, hlen⟩ := hs
    exact ⟨hlen, hlen ▸ min_le_right 3 n, hnd, hlt⟩
  · intro items
    constructor
    · simp [epubSampledItems]
    · simp [epubSampledItems]

/-- C2 witness: a concrete valid draw for a 5-page PDF, and a concrete
4-item EPUB, at which the amended bounds evaluate. -/
theorem C2_sample_bounds_witness :
    (([0, 2, 4] : List Nat).length = min 3 5 ∧
      ([0, 2, 4] : List Nat).length ≤ 5 ∧
      List.Nodup ([0, 2, 4] : List Nat) ∧ (2 : Nat) < 5) ∧
    ((epubSampledItems [EpubItemType.document, EpubItemType.image,
        EpubItemType.other, EpubItemType.document]).length =
      min 10 [EpubItemType.document, EpubItemType.image,
        EpubItemType.other, EpubItemType.document].length) :=
  ⟨⟨(C2_sample_bounds.1 5 [0, 2, 4] (by decide)).1,
    (C2_sample_bounds.1 5 [0, 2, 4] (by decide)).2.1,
    (C2_sample_bounds.1 5 [0, 2, 4] (by decide)).2.2.1,
    (C2_sample_bounds.1 5 [0, 2, 4] (by decide)).2.2.2 2 (by decide)⟩,
   (C2_sample_bounds.2 [EpubItemType.document, EpubItemType.image,
      EpubItemType.other, EpubItemType.document]).1⟩

end GeniusriseOcr

namespace GeniusriseOcr

/-- Every text read back for a valid sample is the text of one of the
document's pages. -/
theorem sampleTexts_mem (doc : List String) (sample : List Nat)
    (hlt : ∀ i ∈ sample, i < doc.length) :
    ∀ t ∈ sampleTexts doc sample, t ∈ doc := by
  intro t ht
  simp only [sampleTexts, List.mem_map] at ht
  obtain ⟨i, hi, rfl⟩ := ht
  rw [List.getD_eq_getElem doc "" (hlt i hi)]
  exact List.getElem_mem _

/-- C3: homogeneous stability. If the document has at least one page
and every page has non-empty stripped text, every valid sample makes
the classifier return `TextDominant`; if every page has empty stripped
text, every valid sample makes it return `ImageDominant`. -/
theorem C3_homogeneous_stability (doc : List String) (sample : List Nat)
    (hs : validSample doc.length sample) :
    (1 ≤ doc.length → (∀ p ∈ doc, isTextPage p = true) →
      classify doc sample = ClassificationResult.TextDominant) ∧
    ((∀ p ∈ doc, isTextPage p = false) →
      classify doc sample = ClassificationResult.ImageDominant) := by
  obtain ⟨hnd, hlt, hlen⟩ := hs
  have hmem := sampleTexts_mem doc sample hlt
  constructor
  · intro hpos hall
    have htc : text_count (sampleTexts doc sample) = sample.length := by
      unfold text_count
      rw [show sample.length = (sampleTexts doc sample).length by
            simp [sampleTexts]]
      rw [List.countP_eq_length]
      intro t ht
      exact hall t (hmem t ht)
    have hic : image_count (sampleTexts doc sample) = 0 := by
      unfold image_count
      rw [List.countP_eq_zero]
      intro t ht
      simp [hall t (hmem t ht)]
    have hlen1 : 1 ≤ sample.length := by
      rw [hlen]
      exact le_min (by norm_num) hpos
    unfold classify
    rw [if_pos]
    rw [htc, hic]
    omega
  · intro hall
    have htc : text_count (sampleTexts doc sample) = 0 := by
      unfold text_count
      rw [List.countP_eq_zero]
      intro t ht
      simp [hall t (hmem t ht)]
    unfold classify
    rw [if_neg]
    rw [htc]
    omega

/-- C3 witness: a 1-page all-text document always classifies
`TextDominant` and a 1-page all-empty document always classifies
`ImageDominant`, at the concrete sample `[0]`. -/
theorem C3_homogeneous_stability_witness :
    classify ["A"] [0] = ClassificationResult.TextDominant ∧
    classify [""] [0] = ClassificationResult.ImageDominant :=
  ⟨(C3_homogeneous_stability ["A"] [0] (by decide)).1 (by decide) (by decide),
   (C3_homogeneous_stability [""] [0] (by decide)).2 (by decide)⟩

/-- C4: empty-document default. For a 0-page document the only sample
`random.sample(range(0), min(3, 0))` can return is the empty list (so
the draw does not raise), both counters stay 0, and the tie falls to
the else branch: the document is routed to the image path. -/
theorem C4_empty_document_default :
    (∀ s : List Nat, validSample 0 s → s = []) ∧
    text_count (sampleTexts [] []) = 0 ∧
    image_count (sampleTexts [] []) = 0 ∧
    classify [] [] = ClassificationResult.ImageDominant := by
  refine ⟨?_, by decide, by decide, by decide⟩
  intro s hs
  have : s.length = 0 := by simpa using hs.2.2
  simpa using this

/-- C4 witness: the empty sample instance of the theorem. -/
theorem C4_empty_document_default_witness :
    ([] : List Nat) = [] ∧ classify [] [] = ClassificationResult.ImageDominant :=
  ⟨C4_empty_document_default.1 [] (by decide), C4_empty_document_default.2.2.2⟩

end GeniusriseOcr

namespace GeniusriseOcr

/-- C9: EPUB classification is deterministic. The decision of
`ParseEpub.process` is a pure function of the item types, depends only
on the first 10 items of the container, and equals the
`ITEM_DOCUMENT`-vs-`ITEM_IMAGE` counting rule; no page text is
extracted and no random draw occurs, so two runs on the same input
always select the same path. -/
theorem C9_epub_deterministic :
    ∀ items : List EpubItemType,
      epubClassify items = epubClassify (epubSampledItems items) ∧
      (epubClassify items = ClassificationResult.TextDominant ↔
        (items.take 10).countP (fun t => t = EpubItemType.document) >
          (items.take 10).countP (fun t => t = EpubItemType.image)) := by
  intro items
  constructor
  · simp [epubClassify, epubTextCount, epubImageCount, epubSampledItems,
      List.take_take]
  · unfold epubClassify epubTextCount epubImageCount epubSampledItems
    split <;> simp_all

/-- Python `str.lower()`, modelled character-wise. -/
def pyLower (s : String) : String := String.mk (s.data.map Char.toLower)

/-- Python `str.upper()`, modelled character-wise. -/
def pyUpper (s : String) : String := String.mk (s.data.map Char.toUpper)

/-- Python `s.split(".")[-1]` (`image.py` line 94): the segment after
the last dot, or the whole string when it has no dot. -/
def lastExtSegment (s : String) : String :=
  String.mk ((s.data.reverse.takeWhile (fun c => c ≠ '.')).reverse)

/-- Python `os.path.splitext(s)[0]` for a bare file name
(`image.py` line 102): the name with its last `.extension` removed,
where the leading dots of the name never start an extension. -/
def splitextStem (s : String) : String :=
  let leading := s.data.takeWhile (fun c => c = '.')
  let rest := s.data.drop leading.length
  if rest.any (fun c => c = '.') then
    String.mk (leading ++ ((rest.reverse.dropWhile (fun c => c ≠ '.')).drop 1).reverse)
  else s

/-- How `ConvertImage.process` saves an image (`image.py` lines
105-114): re-saved with no format argument, converted to PNG, or
converted to JPEG. -/
inductive SaveMode where
  | direct : SaveMode
  | png : SaveMode
  | jpeg : SaveMode
deriving DecidableEq, Repr

/-- One iteration of the `ConvertImage.process` loop (`image.py` lines
93-114) for a single directory entry: the output file written into the
output folder together with the save mode used, or `none` when the
iteration writes nothing (non-image extension, or unsupported
`output_format`). -/
def convertImageStep (output_format : String) (image_file : String) :
    Option (String × SaveMode) :=
  let ext := lastExtSegment (pyLower image_file)
  if ext = "png" ∨ ext = "jpg" ∨ ext = "jpeg" then
    let outFile := splitextStem image_file ++ "." ++ pyLower output_format
    if ext = pyLower output_format then some (outFile, SaveMode.direct)
    else if pyUpper output_format = "PNG" then some (outFile, SaveMode.png)
    else if pyUpper output_format = "JPG" then some (outFile, SaveMode.jpeg)
    else none
  else none

/-- C10: `ConvertImage` silently drops unsupported target formats.
For an input whose lowercased extension is png/jpg/jpeg but differs
from `output_format.lower()`, if `output_format.upper()` is neither
`"PNG"` nor `"JPG"` the loop iteration writes nothing and raises
nothing; and when the extension already equals
`output_format.lower()`, the image is re-saved to the output folder
with no format conversion. -/
theorem C10_convert_image_unsupported_formats (output_format image_file : String) :
    ((lastExtSegment (pyLower image_file) = "png" ∨
      lastExtSegment (pyLower image_file) = "jpg" ∨
      lastExtSegment (pyLower image_file) = "jpeg") →
      lastExtSegment (pyLower image_file) ≠ pyLower output_format →
      pyUpper output_format ≠ "PNG" →
      pyUpper output_format ≠ "JPG" →
      convertImageStep output_format image_file = none) ∧
    ((lastExtSegment (pyLower image_file) = "png" ∨
      lastExtSegment (pyLower image_file) = "jpg" ∨
      lastExtSegment (pyLower image_file) = "jpeg") →
      lastExtSegment (pyLower image_file) = pyLower output_format →
      convertImageStep output_format image_file =
        some (splitextStem image_file ++ "." ++ pyLower output_format,
          SaveMode.direct)) := by
  constructor
  · intro hext hne hpng hjpg
    unfold convertImageStep
    simp only []
    rw [if_pos hext, if_neg hne, if_neg hpng, if_neg hjpg]
  · intro hext heq
    unfold convertImageStep
    simp only []
    rw [if_pos hext, if_pos heq]

/-- C10 witness: requesting `output_format = "JPEG"` for `photo.png`
writes nothing, while requesting `"png"` for `photo.png` re-saves it
directly. -/
theorem C10_convert_image_unsupported_formats_witness :
    convertImageStep "JPEG" "photo.png" = none ∧
    convertImageStep "png" "photo.png" =
      some ("photo" ++ "." ++ pyLower "png", SaveMode.direct) :=
  ⟨(C10_convert_image_unsupported_formats "JPEG" "photo.png").1
      (by decide) (by decide) (by decide) (by decide),
   by
    have h := (C10_convert_image_unsupported_formats "png" "photo.png").2
      (by decide) (by decide)
    simpa [splitextStem] using h⟩

end GeniusriseOcr

namespace GeniusriseOcr

/-- Helper for `pyReplace`: replace occurrences of `pat` (non-empty in
every use below) by `rep`, scanning left to right; `fuel` bounds the
recursion and is instantiated with the length of the scanned list. -/
def replaceFuel : Nat → List Char → List Char → List Char → List Char
  | 0, l, _, _ => l
  | _ + 1, [], _, _ => []
  | fuel + 1, c :: cs, pat, rep =>
    if pat ≠ [] ∧ pat.isPrefixOf (c :: cs) then
      rep ++ replaceFuel fuel ((c :: cs).drop pat.length) pat rep
    else
      c :: replaceFuel fuel cs pat rep

/-- Python `s.replace(pat, rep)`: replace every occurrence of `pat`,
left to right. Modelled structurally so that it evaluates inside the
kernel. -/
def pyReplace (s pat rep : String) : String :=
  String.mk (replaceFuel s.data.length s.data pat.data rep.data)

/-- The two root folders the readers build paths under: the resolved
batch input folder and `self.output.output_folder`. -/
inductive RootFolder where
  | inputDir : RootFolder
  | outputDir : RootFolder
deriving DecidableEq, Repr

/-- One file creation performed by a reader, as the root folder the
source joins the path under and the path components beneath it,
mirroring the `os.path.join` calls of the source. -/
structure FileWrite where
  root : RootFolder
  rel : List String
deriving DecidableEq, Repr

/-- The entries of the JSON array written by
`ParsePdf._process_text_pdf` (`pdf.py` lines 132-137): the stripped
text of each page, in page order. `ParsePostScript._process_text_ps`
(`postscript.py` lines 118-123) builds the same list. -/
def pdfTextJsonEntries (doc : List String) : List String :=
  doc.map pyStrip

/-- The entries of the JSON array written by
`ParseEpub._process_text_epub` (`epub.py` lines 103-106): the stripped
decoded content of each `ITEM_DOCUMENT` item, in item order. -/
def epubTextJsonEntries (docItems : List String) : List String :=
  docItems.map pyStrip

/-- The entries of the JSON array written by
`ParseDjvu._process_text_djvu` (`djvu.py` lines 112-115): a single
`append` of the stripped output of `djvutxt` over the whole document,
so always exactly one entry, whatever the page count. -/
def djvuTextJsonEntries (fullText : String) : List String :=
  [pyStrip fullText]

/-- The file creations of `ParsePdf._process_text_pdf` (`pdf.py` lines
139-142): a single JSON file under the output folder, named by
replacing `.pdf` with `.json` in the input file name. -/
def pdfTextWrites (pdf_file : String) : List FileWrite :=
  [⟨RootFolder.outputDir, [pyReplace pdf_file ".pdf" ".json"]⟩]

/-- The file creations of `ParseDjvu._process_text_djvu` (`djvu.py`
lines 117-120). -/
def djvuTextWrites (djvu_file : String) : List FileWrite :=
  [⟨RootFolder.outputDir, [pyReplace djvu_file ".djvu" ".json"]⟩]

/-- C5 counterexample: the DJVU text path does not write one entry per
page. For a 2-page DJVU whose `djvutxt` whole-document output is
`"Page one\nPage two"`, the written JSON array has exactly one entry,
not 2 = page_count. -/
theorem C5_counterexample :
    (djvuTextJsonEntries "Page one\x0aPage two").length = 1 ∧
    ((djvuTextJsonEntries "Page one\x0aPage two").length == 2) = false := by
  decide

/-- C5 amended: the PDF and PostScript text paths write exactly one
JSON file at `<output_dir>/<name with .pdf replaced by .json>` whose
array has one entry per page, in original page order, each entry the
stripped page text; the EPUB text path writes one entry per document
item in item order; the DJVU text path instead writes a single-element
array holding the stripped whole-document text. -/
theorem C5_text_output_format (pdf_file djvu_file : String) (doc : List String)
    (fullText : String) :
    (pdfTextWrites pdf_file).length = 1 ∧
    pdfTextWrites pdf_file =
      [⟨RootFolder.outputDir, [pyReplace pdf_file ".pdf" ".json"]⟩] ∧
    (pdfTextJsonEntries doc).length = doc.length ∧
    (∀ i, i < doc.length →
      (pdfTextJsonEntries doc).getD i "" = pyStrip (doc.getD i "")) ∧
    (epubTextJsonEntries doc).length = doc.length ∧
    (djvuTextJsonEntries fullText).length = 1 ∧
    (djvuTextWrites djvu_file).length = 1 := by
  refine ⟨rfl, rfl, by simp [pdfTextJsonEntries], ?_,
    by simp [epubTextJsonEntries], rfl, rfl⟩
  intro i hi
  have hi' : i < (pdfTextJsonEntries doc).length := by
    simpa [pdfTextJsonEntries] using hi
  rw [List.getD_eq_getElem _ "" hi', List.getD_eq_getElem _ "" hi]
  simp [pdfTextJsonEntries]

/-- C5 witness: the 3-page document `["A", "B", "C"]` round-trips
through the PDF text path as exactly `["A", "B", "C"]`, written to the
single file `report.json`. -/
theorem C5_text_output_format_witness :
    (pdfTextWrites "report.pdf").length = 1 ∧
    (pdfTextJsonEntries ["A", "B", "C"]).length = 3 ∧
    (pdfTextJsonEntries ["A", "B", "C"]).getD 0 "" = pyStrip (["A", "B", "C"].getD 0 "") ∧
    (pdfTextJsonEntries ["A", "B", "C"]).getD 1 "" = pyStrip (["A", "B", "C"].getD 1 "") ∧
    (pdfTextJsonEntries ["A", "B", "C"]).getD 2 "" = pyStrip (["A", "B", "C"].getD 2 "") := by
  have h := C5_text_output_format "report.pdf" "x.djvu" ["A", "B", "C"] ""
  exact ⟨h.1, h.2.2.1, h.2.2.2.1 0 (by decide), h.2.2.2.1 1 (by decide),
    h.2.2.2.1 2 (by decide)⟩

end GeniusriseOcr

namespace GeniusriseOcr

/-- The name `f"page_{i + 1}.png"` (`pdf.py` line 162). -/
def pageFileName (n : Nat) : String := "page_" ++ toString n ++ ".png"

/-- The file creations of `ParsePdf._process_image_pdf` (`pdf.py`
lines 157-163): `convert_from_path` yields one image per page, saved
as `page_<i+1>.png` inside the folder named by stripping `.pdf` from
the input file name, under the output folder. -/
def pdfImageWrites (pdf_file : String) (page_count : Nat) : List FileWrite :=
  (List.range page_count).map (fun i =>
    ⟨RootFolder.outputDir, [pyReplace pdf_file ".pdf" "", pageFileName (i + 1)]⟩)

/-- The file creations of `ParseDjvu._process_image_djvu` (`djvu.py`
lines 135-145): `ddjvu` renders `page_<i>.png` for `i` in
`range(1, total_pages + 1)`. -/
def djvuImageWrites (djvu_file : String) (page_count : Nat) : List FileWrite :=
  (List.range' 1 page_count).map (fun i =>
    ⟨RootFolder.outputDir, [pyReplace djvu_file ".djvu" "", pageFileName i]⟩)

/-- The file creations of `ParsePostScript._process_image_ps`
(`postscript.py` lines 143-149), identical in shape to the PDF image
path. -/
def psImageWrites (ps_file : String) (page_count : Nat) : List FileWrite :=
  (List.range page_count).map (fun i =>
    ⟨RootFolder.outputDir, [pyReplace ps_file ".ps" "", pageFileName (i + 1)]⟩)

/-- The file creations of `ParseEpub._process_image_epub` (`epub.py`
lines 125-132): one `image_<i+1>.png` per `ITEM_IMAGE` item, not one
`page_<n>.png` per page. -/
def epubImageWrites (epub_file : String) (image_item_count : Nat) : List FileWrite :=
  (List.range image_item_count).map (fun i =>
    ⟨RootFolder.outputDir,
      [pyReplace epub_file ".epub" "", "image_" ++ toString (i + 1) ++ ".png"]⟩)

/-- The name `f"page_{page_num + 1}_img_{img_index + 1}.png"` (`xps.py` line
111). -/
def xpsImageFileName (page img : Nat) : String :=
  "page_" ++ toString page ++ "_img_" ++ toString img ++ ".png"

/-- The file creations of `ParseXPS._process_xps_file` (`xps.py` lines
96-115): for each page, one file per embedded image of that page,
named `page_<p+1>_img_<j+1>.png`; `imagesPerPage` lists the number of
embedded images found on each page. -/
def xpsImageWrites (xps_base : String) (imagesPerPage : List Nat) : List FileWrite :=
  ((List.range imagesPerPage.length).map (fun p =>
    (List.range (imagesPerPage.getD p 0)).map (fun j =>
      FileWrite.mk RootFolder.outputDir
        [pyReplace (pyReplace xps_base ".xps" "") ".oxps" "",
          xpsImageFileName (p + 1) (j + 1)]))).flatten

/-- The bare file names created by a list of writes (each write of the
image paths has the form `[folder, file]`). -/
def writeFileNames (ws : List FileWrite) : List String :=
  ws.map (fun w => w.rel.getLastD "")

/-- C6 counterexample: the EPUB image path does not create
`page_<n>.png` files. For an image-dominant EPUB `book.epub` holding
one image item, the created file is `image_1.png`, not `page_1.png`;
the XPS reader likewise names its files `page_<p>_img_<j>.png`. -/
theorem C6_counterexample :
    writeFileNames (epubImageWrites "book.epub" 1) = ["image_1.png"] ∧
    (writeFileNames (epubImageWrites "book.epub" 1) == [pageFileName 1]) = false ∧
    writeFileNames (xpsImageWrites "doc.xps" [1]) = ["page_1_img_1.png"] ∧
    (writeFileNames (xpsImageWrites "doc.xps" [1]) == [pageFileName 1]) = false := by
  refine ⟨by decide, by decide, ?_, by decide⟩
  decide

/-- C6 amended: the PDF, DJVU and PostScript image paths create one
directory named by stripping the input extension and, inside it,
exactly the files `page_<n>.png` for `n = 1..page_count`; the EPUB
image path instead creates `image_<n>.png` for `n = 1..image_item_count`
(one per `ITEM_IMAGE` item), and the XPS reader creates
`page_<p>_img_<j>.png` per embedded image of each page. -/
theorem C6_image_output_naming (f : String) (n : Nat) :
    writeFileNames (pdfImageWrites f n) =
      (List.range n).map (fun i => pageFileName (i + 1)) ∧
    writeFileNames (djvuImageWrites f n) =
      (List.range n).map (fun i => pageFileName (i + 1)) ∧
    writeFileNames (psImageWrites f n) = writeFileNames (pdfImageWrites f n) ∧
    (pdfImageWrites f n).length = n ∧
    (∀ w ∈ pdfImageWrites f n, w.rel.getD 0 "" = pyReplace f ".pdf" "") ∧
    writeFileNames (epubImageWrites f n) =
      (List.range n).map (fun i => "image_" ++ toString (i + 1) ++ ".png") := by
  refine ⟨?_, ?_, ?_, ?_, ?_, ?_⟩
  · simp [writeFileNames, pdfImageWrites]
  · simp only [writeFileNames, djvuImageWrites, List.map_map]
    rw [List.range'_eq_map_range]
    simp [Function.comp, Nat.add_comm]
  · simp [writeFileNames, psImageWrites, pdfImageWrites]
  · simp [pdfImageWrites]
  · intro w hw
    simp only [pdfImageWrites, List.mem_map, List.mem_range] at hw
    obtain ⟨i, _, rfl⟩ := hw
    rfl
  · simp [writeFileNames, epubImageWrites]

/-- C6 witness: the 2-page PDF instance — file names `page_1.png`,
`page_2.png` inside the directory `scan`, and the contrast with a
2-image EPUB. -/
theorem C6_image_output_naming_witness :
    writeFileNames (pdfImageWrites "scan.pdf" 2) =
      (List.range 2).map (fun i => pageFileName (i + 1)) ∧
    (FileWrite.mk RootFolder.outputDir
        [pyReplace "scan.pdf" ".pdf" "", pageFileName 1]).rel.getD 0 "" =
      pyReplace "scan.pdf" ".pdf" "" ∧
    writeFileNames (epubImageWrites "book.epub" 2) =
      (List.range 2).map (fun i => "image_" ++ toString (i + 1) ++ ".png") :=
  ⟨(C6_image_output_naming "scan.pdf" 2).1,
   (C6_image_output_naming "scan.pdf" 2).2.2.2.2.1
     (FileWrite.mk RootFolder.outputDir
       [pyReplace "scan.pdf" ".pdf" "", pageFileName 1]) (by decide),
   (C6_image_output_naming "book.epub" 2).2.2.2.2.2⟩

end GeniusriseOcr

namespace GeniusriseOcr

/-- Python `s.endswith(suf)`, modelled structurally. -/
def pyEndsWith (s suf : String) : Bool := suf.data.isSuffixOf s.data

/-- The batch loop shared by every reader's `process` method
(`pdf.py` lines 90-117, `djvu.py` lines 70-99, ...): iterate the
directory listing, skip entries whose name does not match the
extension test, and handle each matching document in turn. The loop
body contains no `try/except`, so when handling one document raises
(`Except.error`), the exception propagates out of the loop: the result
records the documents processed to completion, in order, and the
propagated error if any; entries after a raising document are never
reached. -/
def processBatch (matchesExt : String → Bool)
    (handle : String → Except String Unit) :
    List String → List String × Option String
  | [] => ([], none)
  | f :: fs =>
    if matchesExt f then
      match handle f with
      | Except.ok _ =>
        let r := processBatch matchesExt handle fs
        (f :: r.1, r.2)
      | Except.error e => ([], some e)
    else processBatch matchesExt handle fs

/-- C7 counterexample: a failure on one document aborts its siblings.
With a batch `["bad.pdf", "good.pdf"]` whose handler raises on
`bad.pdf` and succeeds on `good.pdf`, the loop ends with the
propagated error and `good.pdf` is never processed, although handling
it alone would have succeeded. -/
theorem C7_counterexample :
    processBatch (fun f => pyEndsWith f ".pdf")
        (fun f => if f = "bad.pdf" then Except.error "corrupt document"
                  else Except.ok ())
        ["bad.pdf", "good.pdf"] = ([], some "corrupt document") ∧
    processBatch (fun f => pyEndsWith f ".pdf")
        (fun f => if f = "bad.pdf" then Except.error "corrupt document"
                  else Except.ok ())
        ["good.pdf"] = (["good.pdf"], none) := by
  constructor
  · rfl
  · rfl

/-- C7 amended: failures are not isolated per document. In every
reader's batch loop, an exception raised while handling a matching
document propagates and aborts the loop, leaving all later documents
unprocessed; only entries whose name fails the extension test are
skipped, and after a successful document the loop does continue to the
rest. -/
theorem C7_failure_propagation (matchesExt : String → Bool)
    (handle : String → Except String Unit) (f : String) (fs : List String)
    (e : String) :
    (matchesExt f = true → handle f = Except.error e →
      processBatch matchesExt handle (f :: fs) = ([], some e)) ∧
    (matchesExt f = false →
      processBatch matchesExt handle (f :: fs) = processBatch matchesExt handle fs) ∧
    (matchesExt f = true → handle f = Except.ok () →
      processBatch matchesExt handle (f :: fs) =
        (f :: (processBatch matchesExt handle fs).1,
          (processBatch matchesExt handle fs).2)) := by
  refine ⟨?_, ?_, ?_⟩
  · intro hm he
    simp [processBatch, hm, he]
  · intro hm
    simp [processBatch, hm]
  · intro hm he
    simp [processBatch, hm, he]

/-- C7 witness: the amended behavior evaluated on the concrete batch
of the counterexample scenario. -/
theorem C7_failure_propagation_witness :
    processBatch (fun f => pyEndsWith f ".pdf")
        (fun f => if f = "bad.pdf" then Except.error "corrupt document"
                  else Except.ok ())
        ("bad.pdf" :: ["good.pdf"]) = ([], some "corrupt document") ∧
    processBatch (fun f => pyEndsWith f ".pdf")
        (fun f => if f = "bad.pdf" then Except.error "corrupt document"
                  else Except.ok ())
        ("notes.txt" :: ["good.pdf"]) =
      processBatch (fun f => pyEndsWith f ".pdf")
        (fun f => if f = "bad.pdf" then Except.error "corrupt document"
                  else Except.ok ())
        ["good.pdf"] :=
  ⟨(C7_failure_propagation (fun f => pyEndsWith f ".pdf")
      (fun f => if f = "bad.pdf" then Except.error "corrupt document"
                else Except.ok ())
      "bad.pdf" ["good.pdf"] "corrupt document").1 (by rfl) (by rfl),
   (C7_failure_propagation (fun f => pyEndsWith f ".pdf")
      (fun f => if f = "bad.pdf" then Except.error "corrupt document"
                else Except.ok ())
      "notes.txt" ["good.pdf"] "corrupt document").2.1 (by rfl)⟩

end GeniusriseOcr

namespace GeniusriseOcr

/-- All file creations of `ParsePdf` for one document, by routing
outcome (`pdf.py` lines 113-117 select the handler; lines 139-142 and
157-163 perform the writes). Both handlers join their paths under
`self.output.output_folder` only. -/
def pdfDocWrites (pdf_file : String) (page_count : Nat)
    (r : ClassificationResult) : List FileWrite :=
  match r with
  | ClassificationResult.TextDominant => pdfTextWrites pdf_file
  | ClassificationResult.ImageDominant => pdfImageWrites pdf_file page_count

/-- All file creations of `ParseDjvu` for one document
(`djvu.py` lines 96-99, 117-120, 135-145). -/
def djvuDocWrites (djvu_file : String) (page_count : Nat)
    (r : ClassificationResult) : List FileWrite :=
  match r with
  | ClassificationResult.TextDominant => djvuTextWrites djvu_file
  | ClassificationResult.ImageDominant => djvuImageWrites djvu_file page_count

/-- All file creations of `ParseEpub` for one document
(`epub.py` lines 86-89, 108-111, 126-132). -/
def epubDocWrites (epub_file : String) (image_item_count : Nat)
    (r : ClassificationResult) : List FileWrite :=
  match r with
  | ClassificationResult.TextDominant =>
    [⟨RootFolder.outputDir, [pyReplace epub_file ".epub" ".json"]⟩]
  | ClassificationResult.ImageDominant => epubImageWrites epub_file image_item_count

/-- All file creations of `ParsePostScript` for one document: before
classifying, `process` converts the PostScript file to a PDF placed in
the INPUT folder (`postscript.py` lines 76-80:
`pdf_path = os.path.join(input_folder, ps_file.replace(".ps", ".pdf"))`
followed by `subprocess.run(["ps2pdf", ps_path, pdf_path])`), then the
selected handler writes under the output folder (lines 125-128,
143-149). -/
def psDocWrites (ps_file : String) (page_count : Nat)
    (r : ClassificationResult) : List FileWrite :=
  FileWrite.mk RootFolder.inputDir [pyReplace ps_file ".ps" ".pdf"] ::
    (match r with
     | ClassificationResult.TextDominant =>
       [⟨RootFolder.outputDir, [pyReplace ps_file ".ps" ".json"]⟩]
     | ClassificationResult.ImageDominant => psImageWrites ps_file page_count)

/-- Holds (as `true`) iff every write of the list lands under the output
folder. -/
def writesOnlyToOutput (ws : List FileWrite) : Bool :=
  ws.all (fun w => decide (w.root = RootFolder.outputDir))

/-- C8 counterexample: processing does not write only to the output
directory. For the input `scan.ps` (a 1-page all-image document routed
to the image path), `ParsePostScript.process` creates `scan.pdf`
inside the INPUT folder before classifying, so the input folder's
contents differ before and after the run. -/
theorem C8_counterexample :
    FileWrite.mk RootFolder.inputDir ["scan.pdf"] ∈
      psDocWrites "scan.ps" 1 ClassificationResult.ImageDominant ∧
    writesOnlyToOutput
      (psDocWrites "scan.ps" 1 ClassificationResult.ImageDominant) = false := by
  decide

/-- C8 amended: classification itself performs no write, and the PDF,
DJVU and EPUB readers write only under the output folder on both
paths; the PostScript reader, however, first writes the `ps2pdf`
conversion `<name>.pdf` into the input folder and only then confines
its remaining writes to the output folder. -/
theorem C8_write_confinement (f : String) (n : Nat) (r : ClassificationResult) :
    writesOnlyToOutput (pdfDocWrites f n r) = true ∧
    writesOnlyToOutput (djvuDocWrites f n r) = true ∧
    writesOnlyToOutput (epubDocWrites f n r) = true ∧
    (psDocWrites f n r).head? =
      some (FileWrite.mk RootFolder.inputDir [pyReplace f ".ps" ".pdf"]) ∧
    writesOnlyToOutput (psDocWrites f n r).tail = true := by
  refine ⟨?_, ?_, ?_, ?_, ?_⟩
  · cases r <;>
      simp [pdfDocWrites, pdfTextWrites, pdfImageWrites, writesOnlyToOutput,
        List.all_eq_true]
  · cases r
    · simp [djvuDocWrites, djvuTextWrites, writesOnlyToOutput]
    · simp only [djvuDocWrites, djvuImageWrites, writesOnlyToOutput,
        List.all_eq_true, List.mem_map, List.mem_range']
      rintro w ⟨i, _, rfl⟩
      rfl
  · cases r <;>
      simp [epubDocWrites, epubImageWrites, writesOnlyToOutput,
        List.all_eq_true]
  · cases r <;> rfl
  · cases r <;>
      simp [psDocWrites, psImageWrites, writesOnlyToOutput,
        List.all_eq_true]

/-- C8 witness: the write confinement evaluated for a concrete 2-page
image-dominant document. -/
theorem C8_write_confinement_witness :
    writesOnlyToOutput
      (pdfDocWrites "scan.pdf" 2 ClassificationResult.ImageDominant) = true ∧
    (psDocWrites "scan.ps" 2 ClassificationResult.ImageDominant).head? =
      some (FileWrite.mk RootFolder.inputDir [pyReplace "scan.ps" ".ps" ".pdf"]) :=
  ⟨(C8_write_confinement "scan.pdf" 2 ClassificationResult.ImageDominant).1,
   (C8_write_confinement "scan.ps" 2 ClassificationResult.ImageDominant).2.2.2.1⟩

end GeniusriseOcr
